import Mathlib

/-!
Verification of the mockupdb wire-protocol mock server
(`src/mockupdb/__init__.py`, version 0.1.0).

The development shallowly embeds the parts of the module that the claims
touch: the opcode table and message dispatch (`mock_server_receive_request`),
the `OpKillCursors.unpack` body parser, the `Matcher.matches` predicate with
its `seq_match` helper, `Command._replies`, the `_PeekableQueue`, and the
polling loops of `MockupDB.receives`, `MockupDB.got` and the autoresponder
dispatch in `MockupDB._server_loop`.

Conventions of the embedding:
- BSON documents are association lists of string keys and integer values
  (`Doc`); the `ordered` flag records whether the Python value is an
  `OrderedDict`/`bson.SON` (ordered) or a plain `dict` (unordered); BSON
  encoding/decoding itself is an external collaborator of the module and is
  not modelled.
- Python exceptions are modelled with `Except MockErr`; the `MockErr`
  constructors name the exception raised at the corresponding source line.
- Wire bytes are lists of naturals below 256; little-endian struct unpacking
  is modelled with explicit `% 2 ^ 32` / `% 2 ^ 64` wrap-around.
- The blocking loops of `receives` and `got` are modelled as functions over a
  finite trace of loop iterations (`PollStep`), each recording the stopped
  flag, the queue poll outcome, and whether the deadline has passed.
-/

deriving instance DecidableEq for Except

/-- Python exceptions raised by the module, by raise site. -/
inductive MockErr
  /-- NotImplementedError in `mock_server_receive_request` for an opcode
      missing from `OPCODES`; carries the opcode. -/
  | notImplementedOpcode (opcode : Int)
  /-- TypeError in `Matcher.matches`: cannot compare ordered and unordered
      document types. -/
  | typeErrorOrderedUnordered
  /-- TypeError in `make_docs`: each doc must be a dict. -/
  | typeErrorDocMustBeDict
  /-- ValueError in `Command._replies`: command reply with multiple
      documents. -/
  | valueErrorMultiDocCommandReply
  /-- struct.error: a struct unpack slice holds too few bytes. -/
  | structError
  /-- queue.Empty raised by a queue `get`/`peek` that times out. -/
  | emptyError
deriving DecidableEq, Repr

/-- A BSON document as the module sees it after decoding: key-value entries
in insertion order, values modelled as integers. `ordered` is true when the
Python object is an `OrderedDict` or `bson.SON` (the two types
`Matcher.matches` treats as ordered), false for a plain `dict`. -/
structure Doc where
  entries : List (String × Int)
  ordered : Bool
deriving DecidableEq, Repr

/-- Python `dict.get`: the value stored under `k`, or `none`. -/
def Doc.get (d : Doc) (k : String) : Option Int :=
  (d.entries.find? (fun kv => kv.1 == k)).map (·.2)

/-- Python `list(doc.keys())`. -/
def Doc.keys (d : Doc) : List String :=
  d.entries.map (·.1)

/-- The fields of a `Request` (and of its subclasses `OpQuery`, `Command`,
`OpGetMore`, `OpKillCursors`, `OpInsert`, `OpUpdate`, `OpDelete`) that the
attribute loop of `Matcher.matches` can observe through `getattr` with
default `None`.  A field is `none` when the Python attribute is `None` or
when the variant does not define it (`getattr` then also yields `None`).
`opcode` is the class attribute (`None` on the base `Request`, `OP_QUERY`
on `OpQuery` and `Command`, and so on). -/
structure Request where
  opcode : Option Int := none
  flags : Option Int := none
  «namespace» : Option String := none
  request_id : Option Int := none
  num_to_skip : Option Int := none
  num_to_return : Option Int := none
  cursor_id : Option Int := none
  cursor_ids : Option (List Int) := none
  fields : Option Doc := none
  docs : List Doc := []
deriving DecidableEq, Repr

/-- Wire opcode constants from the top of the module. -/
def OP_REPLY : Int := 1

def OP_UPDATE : Int := 2001

def OP_INSERT : Int := 2002

def OP_QUERY : Int := 2004

def OP_GET_MORE : Int := 2005

def OP_DELETE : Int := 2006

def OP_KILL_CURSORS : Int := 2007

/-- The prototype `Command(name)` built by `make_prototype_request` from a
string spec: `make_docs` turns the string into the plain dict
`{name: 1}`, and `Command` inherits `opcode = OP_QUERY` from `OpQuery`. -/
def Command.ofString (name : String) : Request :=
  { opcode := some OP_QUERY, docs := [⟨[(name, 1)], false⟩] }

/-- The inner while loop of `seq_match`: advance through `seq1` until the
current element of `seq0` is found, then continue with the rest of both;
if `seq1` is exhausted first, return false. -/
def seq_match_loop : List String → List String → Bool
  | [], _ => true
  | _ :: _, [] => false
  | e :: es, y :: ys => if y = e then seq_match_loop es ys else seq_match_loop (e :: es) ys

/-- `seq_match(seq0, seq1)`: true if `seq0` is a subset of `seq1` and their
elements are in the same order.  The source first rejects a `seq1` shorter
than `seq0`, then runs the greedy scan. -/
def seq_match (seq0 seq1 : List String) : Bool :=
  if seq1.length < seq0.length then false else seq_match_loop seq0 seq1

/-- One step of the attribute loop of `Matcher.matches`:
`if prototype_value not in (None, actual_value): return False`. -/
def attrMatch {α : Type} [DecidableEq α] (prototype_value actual_value : Option α) : Bool :=
  match prototype_value with
  | none => true
  | some v => actual_value = some v

/-- The attribute loop of `Matcher.matches` over every public non-method,
non-document attribute of the prototype (`doc` and `docs` are skipped by
the source; `client_port` reads as `None` on a prototype with no client
socket and is therefore never restrictive). -/
def attrsMatch (proto cand : Request) : Bool :=
  attrMatch proto.opcode cand.opcode &&
  attrMatch proto.flags cand.flags &&
  attrMatch proto.«namespace» cand.«namespace» &&
  attrMatch proto.request_id cand.request_id &&
  attrMatch proto.num_to_skip cand.num_to_skip &&
  attrMatch proto.num_to_return cand.num_to_return &&
  attrMatch proto.cursor_id cand.cursor_id &&
  attrMatch proto.cursor_ids cand.cursor_ids &&
  attrMatch proto.fields cand.fields

/-- The per-document body of `Matcher.matches`: every key-value pair of the
prototype document must be present in the candidate via `dict.get`; if the
prototype document is ordered, a candidate that is not ordered raises
TypeError, and otherwise the prototype keys must `seq_match` the candidate
keys. -/
def docMatch (doc other_doc : Doc) : Except MockErr Bool :=
  if doc.entries.all (fun kv => other_doc.get kv.1 == some kv.2) then
    if doc.ordered then
      if other_doc.ordered then
        .ok (seq_match doc.keys other_doc.keys)
      else
        .error .typeErrorOrderedUnordered
    else
      .ok true
  else
    .ok false

/-- The document loop of `Matcher.matches`: the first failing document
returns false from the whole call, a TypeError propagates. -/
def docsMatch : List Doc → List Doc → Except MockErr Bool
  | [], _ => .ok true
  | _ :: _, [] => .ok false  -- unreachable under the document-count gate
  | d :: ds, c :: cs =>
    match docMatch d c with
    | .error e => .error e
    | .ok true => docsMatch ds cs
    | .ok false => .ok false

/-- `Matcher.matches`, taking the matcher prototype and the candidate
request.  The matcher opcode equals the prototype opcode (it is `None` for
the empty matcher, whose prototype opcode is also `None`), so the leading
opcode gate is expressed through the prototype. -/
def Matcher.matches (proto cand : Request) : Except MockErr Bool :=
  if !(attrMatch proto.opcode cand.opcode) then .ok false
  else if !(attrsMatch proto cand) then .ok false
  else if !(proto.docs.length == 0 || proto.docs.length == cand.docs.length) then .ok false
  else docsMatch proto.docs cand.docs

/-- Little-endian value of a byte list (least significant byte first). -/
def bytesLE : List Nat → Nat
  | [] => 0
  | b :: bs => b + 256 * bytesLE bs

/-- Reinterpret the low 32 bits of a natural as a signed 32-bit integer,
the value struct format `<i` produces. -/
def toInt32 (n : Nat) : Int :=
  if n % 2 ^ 32 < 2 ^ 31 then ((n % 2 ^ 32 : Nat) : Int)
  else ((n % 2 ^ 32 : Nat) : Int) - 2 ^ 32

/-- Reinterpret the low 64 bits of a natural as a signed 64-bit integer,
the value struct format `<q` produces. -/
def toInt64 (n : Nat) : Int :=
  if n % 2 ^ 64 < 2 ^ 63 then ((n % 2 ^ 64 : Nat) : Int)
  else ((n % 2 ^ 64 : Nat) : Int) - 2 ^ 64

/-- `_UNPACK_INT(msg[pos:pos + 4])`: unpack a little-endian signed int32
from four bytes of `msg`; struct raises when the slice is short. -/
def unpackInt (msg : List Nat) (pos : Nat) : Except MockErr Int :=
  if pos + 4 ≤ msg.length then .ok (toInt32 (bytesLE ((msg.drop pos).take 4)))
  else .error .structError

/-- `_UNPACK_LONG(msg[pos:pos + 8])`: unpack a little-endian signed int64
from eight bytes of `msg` (used by the module for `OP_GET_MORE` cursor
ids). -/
def unpackLong (msg : List Nat) (pos : Nat) : Except MockErr Int :=
  if pos + 8 ≤ msg.length then .ok (toInt64 (bytesLE ((msg.drop pos).take 8)))
  else .error .structError

/-- The per-opcode unpack classmethods that `OPCODES` maps opcodes to;
body parsing is delegated to them by `mock_server_receive_request`. -/
inductive OpcodeHandler
  | opQueryUnpack
  | opInsertUnpack
  | opUpdateUnpack
  | opDeleteUnpack
  | opGetMoreUnpack
  | opKillCursorsUnpack
deriving DecidableEq, Repr

/-- The `OPCODES` table at the bottom of the module: the only opcodes with
an unpack class. -/
def OPCODES : List (Int × OpcodeHandler) :=
  [(OP_QUERY, .opQueryUnpack),
   (OP_INSERT, .opInsertUnpack),
   (OP_UPDATE, .opUpdateUnpack),
   (OP_DELETE, .opDeleteUnpack),
   (OP_GET_MORE, .opGetMoreUnpack),
   (OP_KILL_CURSORS, .opKillCursorsUnpack)]

/-- `mock_server_receive_request`, up to the dispatch: parse the 16-byte
header (length at offset 0, request id at offset 4, opcode at offset 12);
when the opcode is not a key of `OPCODES`, raise NotImplementedError;
otherwise dispatch the body bytes to that entry's unpack classmethod. -/
def mock_server_receive_request (header : List Nat) : Except MockErr OpcodeHandler := do
  let _length ← unpackInt header 0
  let _request_id ← unpackInt header 4
  let opcode ← unpackInt header 12
  match OPCODES.find? (fun p => p.1 == opcode) with
  | none => .error (.notImplementedOpcode opcode)
  | some p => .ok p.2

/-- The id-reading loop of `OpKillCursors.unpack`: starting at byte offset
`pos`, read `n` values with `_UNPACK_INT`, advancing the offset by 4 each
time. -/
def killCursorsLoop (msg : List Nat) (pos : Nat) : Nat → Except MockErr (List Int)
  | 0 => .ok []
  | n + 1 =>
    match unpackInt msg pos with
    | .error e => .error e
    | .ok id =>
      match killCursorsLoop msg (pos + 4) n with
      | .error e => .error e
      | .ok rest => .ok (id :: rest)

/-- `OpKillCursors.unpack` on the message body: skip the 4 reserved bytes,
read `numberOfCursorIDs` at offset 4, then collect that many cursor ids
with the 4-byte `_UNPACK_INT` reader starting at offset 8.  Returns the
`cursor_ids` list of the resulting `OpKillCursors`. -/
def OpKillCursors_unpack (msg : List Nat) : Except MockErr (List Int) := do
  let num_of_cursor_ids ← unpackInt msg 4
  killCursorsLoop msg 8 num_of_cursor_ids.toNat

/-- Python `dict.setdefault(k, v)` restricted to its effect on the mapping:
no change when `k` is present, otherwise `k` is inserted at the end bound
to `v`. -/
def Doc.setdefault (d : Doc) (k : String) (v : Int) : Doc :=
  match d.get k with
  | some _ => d
  | none => ⟨d.entries ++ [(k, v)], d.ordered⟩

/-- `Command._replies` on the documents of the reply produced by
`make_reply`: an empty document list is replaced by the single plain dict
`{ok: 1}`; more than one document raises ValueError; a single document has
`ok` defaulted to 1 by `setdefault`.  Returns the documents the reply is
sent with. -/
def Command_replies (reply_docs : List Doc) : Except MockErr (List Doc) :=
  match reply_docs with
  | [] => .ok [⟨[("ok", 1)], false⟩]
  | [d] => .ok [d.setdefault "ok" 1]
  | _ => .error .valueErrorMultiDocCommandReply

/-- The `_PeekableQueue` state: the one-slot `_item` buffer (the `_NO_ITEM`
sentinel is `none`) plus the contents of the underlying `Queue`, head
first. -/
structure PeekableQueue where
  item : Option Request
  queue : List Request
deriving DecidableEq, Repr

/-- `_PeekableQueue.peek`: return the buffered item if present, otherwise
fill the buffer from the underlying queue and return that; an empty queue
raises Empty after the timeout. -/
def PeekableQueue.peek : PeekableQueue → Except MockErr (Request × PeekableQueue)
  | ⟨some x, q⟩ => .ok (x, ⟨some x, q⟩)
  | ⟨none, []⟩ => .error .emptyError
  | ⟨none, x :: xs⟩ => .ok (x, ⟨some x, xs⟩)

/-- `_PeekableQueue.get`: return and clear the buffered item if present,
otherwise pop the underlying queue; an empty queue raises Empty after the
timeout. -/
def PeekableQueue.get : PeekableQueue → Except MockErr (Request × PeekableQueue)
  | ⟨some x, q⟩ => .ok (x, ⟨none, q⟩)
  | ⟨none, []⟩ => .error .emptyError
  | ⟨none, x :: xs⟩ => .ok (x, ⟨none, xs⟩)

/-- All items held by a `_PeekableQueue`, in the order `get` would yield
them: the buffered item, if any, then the underlying queue. -/
def PeekableQueue.items (s : PeekableQueue) : List Request :=
  s.item.toList ++ s.queue

/-- The positional-argument shapes of a reply spec that `make_docs`
distinguishes, as stored by `MockupDB.autoresponds`.  `callableArg` is a
Python function object passed as the responder, tagged with the boolean it
would return if it were ever called. -/
inductive ReplySpec
  | emptySpec
  | numArg (n : Int)
  | docArg (d : Doc)
  | strArg (s : String)
  | callableArg (ret : Bool)
deriving DecidableEq, Repr

/-- `make_docs` on the stored reply arguments: no arguments yield no
documents; a number becomes `{ok: n}`; a string `s` becomes `{s: 1}`; a
mapping is passed through; any other object — in particular a function —
falls through every branch to the final mapping check and raises
TypeError (each doc must be a dict). -/
def make_docs : ReplySpec → Except MockErr (List Doc)
  | .emptySpec => .ok []
  | .numArg n => .ok [⟨[("ok", n)], false⟩]
  | .docArg d => .ok [d]
  | .strArg s => .ok [⟨[(s, 1)], false⟩]
  | .callableArg _ => .error .typeErrorDocMustBeDict

/-- Outcome of one `_server_loop` iteration after a request is parsed:
either some autoresponder matched and the request was replied to with the
documents its stored spec produced, or no responder matched and the
request was put on the request queue (the for-else branch). -/
inductive LoopAction
  | handled (matcher : Request) (spec : ReplySpec) (sent : List Doc)
  | enqueued
deriving DecidableEq, Repr

/-- The autoresponder loop of `_server_loop` over an already-reversed
responder list: the first responder whose matcher matches has
`request_msg.reply(*args, **kwargs)` called with its stored spec and the
loop breaks; exceptions from `Matcher.matches` or from building the reply
propagate out of the loop. -/
def dispatchRev (req : Request) : List (Request × ReplySpec) → Except MockErr LoopAction
  | [] => .ok .enqueued
  | (m, spec) :: rest =>
    match Matcher.matches m req with
    | .error e => .error e
    | .ok true =>
      match make_docs spec with
      | .error e => .error e
      | .ok ds => .ok (.handled m spec ds)
    | .ok false => dispatchRev req rest

/-- Autoresponder dispatch of `_server_loop`: iterate
`reversed(self._autoresponders)` — most recently registered first — and
stop at the first match; with no match, enqueue the request. -/
def serverLoopDispatch (autoresponders : List (Request × ReplySpec)) (req : Request) :
    Except MockErr LoopAction :=
  dispatchRev req autoresponders.reverse

/-- One iteration of the polling loops of `MockupDB.receives` and
`MockupDB.got`: the value of `self._stopped` read by the loop condition,
the outcome of the queue `get`/`peek` (`none` models the Empty exception),
and whether `time.time() > end` at that point. -/
structure PollStep where
  stopped : Bool
  popped : Option Request
  pastEnd : Bool
deriving DecidableEq, Repr

/-- Result of `MockupDB.receives`. -/
inductive RecvOutcome
  /-- The popped request matched and is returned. -/
  | got (r : Request)
  /-- AssertionError: expected to receive the prototype, got `r`. -/
  | unexpectedErr (r : Request)
  /-- AssertionError: expected to receive the prototype, got nothing. -/
  | timeoutErr
  /-- An exception raised by `Matcher.matches` propagates. -/
  | matchErr (e : MockErr)
  /-- The loop exited because the server stopped; `receives` returns None. -/
  | stoppedNone
  /-- The trace ended with the loop still polling. -/
  | running
deriving DecidableEq, Repr

/-- The polling loop of `MockupDB.receives` on a trace of iterations:
while not stopped, pop with a short timeout; on Empty past the deadline
raise the timeout assertion, otherwise keep polling; on a popped request
return it when it matches and raise the unexpected-request assertion when
it does not; when the loop exits because the server stopped, return
None. -/
def receivesRun (proto : Request) : List PollStep → RecvOutcome
  | [] => .running
  | s :: rest =>
    if s.stopped then .stoppedNone
    else
      match s.popped with
      | none => if s.pastEnd then .timeoutErr else receivesRun proto rest
      | some r =>
        match Matcher.matches proto r with
        | .error e => .matchErr e
        | .ok true => .got r
        | .ok false => .unexpectedErr r

/-- Result of `MockupDB.got`. -/
inductive GotOutcome
  /-- `matcher.matches(request)` returned on a peeked request, or the
      deadline passed and `got` returned False. -/
  | boolRes (b : Bool)
  /-- The loop exited because the server stopped; `got` returns None. -/
  | noneRes
  /-- An exception raised by `Matcher.matches` propagates. -/
  | matchErr (e : MockErr)
  /-- The trace ended with the loop still polling. -/
  | running
deriving DecidableEq, Repr

/-- The polling loop of `MockupDB.got` on a trace of iterations:
while not stopped, peek; on Empty return False once past the deadline,
otherwise keep polling; on a peeked request return the boolean
`matcher.matches(request)`; when the loop exits because the server
stopped, return None. -/
def gotRun (proto : Request) : List PollStep → GotOutcome
  | [] => .running
  | s :: rest =>
    if s.stopped then .noneRes
    else
      match s.popped with
      | none => if s.pastEnd then .boolRes false else gotRun proto rest
      | some r =>
        match Matcher.matches proto r with
        | .error e => .matchErr e
        | .ok b => .boolRes b

/-- A Python value the `MockupDB.request` property could evaluate to. -/
inductive PyVal
  | requestVal (r : Request)
  | boolVal (b : Bool)
  | noneVal
deriving DecidableEq, Repr

/-- The `MockupDB.request` property: `self.got() or None`, with `got`
called with no arguments so its matcher is the empty wildcard
`Matcher()`.  `True or None` is `True`; `False or None` and
`None or None` are `None`.  The result is `none` when `got` does not
return a value on the trace (still polling, or an exception). -/
def MockupDB_request (trace : List PollStep) : Option PyVal :=
  match gotRun {} trace with
  | .boolRes true => some (.boolVal true)
  | .boolRes false => some .noneVal
  | .noneRes => some .noneVal
  | .matchErr _ => none
  | .running => none

/-- A loop iteration on which `receives`/`got` keeps polling: the server is
not stopped, the queue poll raised Empty, and the deadline has not
passed. -/
def contStep (s : PollStep) : Prop :=
  s.stopped = false ∧ s.popped = none ∧ s.pastEnd = false

/-!  Helper lemmas. -/

/-- The greedy scan of `seq_match` only succeeds on order-preserving
subsequences. -/
theorem seq_match_loop_sublist (s0 s1 : List String) (h : seq_match_loop s0 s1 = true) :
    s0.Sublist s1 := by
  induction s1 generalizing s0 with
  | nil =>
    cases s0 with
    | nil => exact List.Sublist.refl []
    | cons e es => simp [seq_match_loop] at h
  | cons y ys ih =>
    cases s0 with
    | nil => exact List.nil_sublist _
    | cons e es =>
      rw [seq_match_loop] at h
      by_cases hy : y = e
      · rw [if_pos hy] at h
        subst hy
        exact List.Sublist.cons₂ y (ih es h)
      · rw [if_neg hy] at h
        exact List.Sublist.cons y (ih (e :: es) h)

/-- `seq_match` only succeeds on order-preserving subsequences. -/
theorem seq_match_sublist (s0 s1 : List String) (h : seq_match s0 s1 = true) :
    s0.Sublist s1 := by
  rw [seq_match] at h
  split at h
  · exact absurd h (by simp)
  · exact seq_match_loop_sublist s0 s1 h

/-- A successful `docMatch` with an ordered prototype document forces an
ordered candidate document whose keys pass `seq_match`. -/
theorem docMatch_ordered {d c : Doc} (h : docMatch d c = .ok true) (hd : d.ordered = true) :
    c.ordered = true ∧ seq_match d.keys c.keys = true := by
  rw [docMatch, hd] at h
  split at h
  · cases hc : c.ordered <;> rw [hc] at h <;> simp_all
  · simp_all

/-- A successful `docsMatch` succeeds on each document pair. -/
theorem docsMatch_get (ds : List Doc) :
    ∀ (cs : List Doc) (i : Nat) (d c : Doc), docsMatch ds cs = .ok true →
      ds[i]? = some d → cs[i]? = some c → docMatch d c = .ok true := by
  induction ds with
  | nil => intro cs i d c _ hd _; simp at hd
  | cons d0 ds ih =>
    intro cs i d c h hd hc
    cases cs with
    | nil => simp [docsMatch] at h
    | cons c0 cs =>
      rw [docsMatch] at h
      cases hm : docMatch d0 c0 with
      | error e => rw [hm] at h; exact absurd h (by simp)
      | ok b =>
        rw [hm] at h
        cases b with
        | false => exact absurd h (by simp)
        | true =>
          cases i with
          | zero =>
            simp only [List.getElem?_cons_zero, Option.some.injEq] at hd hc
            rw [← hd, ← hc]
            exact hm
          | succ i =>
            simp only [List.getElem?_cons_succ] at hd hc
            exact ih cs i d c h hd hc

/-- A successful `Matcher.matches` passes its document loop. -/
theorem matches_true_elim {p c : Request} (h : Matcher.matches p c = .ok true) :
    docsMatch p.docs c.docs = .ok true := by
  rw [Matcher.matches] at h
  split at h
  · exact absurd h (by simp)
  · split at h
    · exact absurd h (by simp)
    · split at h
      · exact absurd h (by simp)
      · exact h

/-- The empty matcher (wildcard prototype) matches every request. -/
theorem matches_wildcard (r : Request) : Matcher.matches {} r = .ok true := rfl

/-- `receivesRun` ignores a prefix of keep-polling iterations. -/
theorem receivesRun_cont_append (proto : Request) (pre l : List PollStep)
    (hpre : ∀ x ∈ pre, contStep x) :
    receivesRun proto (pre ++ l) = receivesRun proto l := by
  induction pre with
  | nil => rfl
  | cons s pre ih =>
    obtain ⟨h1, h2, h3⟩ := hpre s (by simp)
    rw [List.cons_append, receivesRun, h1, h2, h3]
    simp only [Bool.false_eq_true, if_false]
    exact ih (fun x hx => hpre x (by simp [hx]))

/-- `gotRun` ignores a prefix of keep-polling iterations. -/
theorem gotRun_cont_append (proto : Request) (pre l : List PollStep)
    (hpre : ∀ x ∈ pre, contStep x) :
    gotRun proto (pre ++ l) = gotRun proto l := by
  induction pre with
  | nil => rfl
  | cons s pre ih =>
    obtain ⟨h1, h2, h3⟩ := hpre s (by simp)
    rw [List.cons_append, gotRun, h1, h2, h3]
    simp only [Bool.false_eq_true, if_false]
    exact ih (fun x hx => hpre x (by simp [hx]))

/-- The autoresponder loop skips responders whose matcher does not
match. -/
theorem dispatchRev_skip (req : Request) (pre l : List (Request × ReplySpec))
    (hpre : ∀ p ∈ pre, Matcher.matches p.1 req = .ok false) :
    dispatchRev req (pre ++ l) = dispatchRev req l := by
  induction pre with
  | nil => rfl
  | cons p pre ih =>
    obtain ⟨m, spec⟩ := p
    have h := hpre (m, spec) (by simp)
    rw [List.cons_append, dispatchRev, h]
    exact ih (fun q hq => hpre q (by simp [hq]))

/-!  Claim theorems. -/

/-- C1: the claim states that opcode 2013 (OP_MSG) is a supported opcode
whose body is parsed into an OpMsg request.  The `OPCODES` table has no
entry for 2013, so on a header whose opcode field holds 2013,
`mock_server_receive_request` raises NotImplementedError instead of
producing a parsed request. -/
theorem opcode_msg_unsupported :
    mock_server_receive_request
      [26, 0, 0, 0, 1, 0, 0, 0, 0, 0, 0, 0, 221, 7, 0, 0] =
      .error (.notImplementedOpcode 2013) ∧
    OPCODES.find? (fun p => p.1 == 2013) = none :=
  ⟨by decide, by decide⟩

/-- C2: the claim states that the matcher compares command names
case-insensitively, so that `Matcher(Command("ismaster"))` matches
`Command("IsMaster")`.  The code compares document keys exactly through
`dict.get`, so the match returns False. -/
theorem command_name_case_sensitive :
    Matcher.matches (Command.ofString "ismaster") (Command.ofString "IsMaster") =
      .ok false :=
  by decide

/-- C3 counterexample: with responders R1 = (wildcard, document `{ok: 1}`)
and R2 = (wildcard, callable returning False) registered in that order,
the claim predicts that the callable is invoked, returns False, and the
request falls through to R1, which handles it.  The code instead treats
the callable as the reply spec of R2 and raises TypeError inside
`make_docs`, so R1 never handles the request. -/
theorem callable_responder_counterexample :
    serverLoopDispatch
        [({}, .docArg ⟨[("ok", 1)], false⟩), ({}, .callableArg false)] {} =
      .error .typeErrorDocMustBeDict ∧
    serverLoopDispatch
        [({}, .docArg ⟨[("ok", 1)], false⟩), ({}, .callableArg false)] {} ≠
      .ok (.handled {} (.docArg ⟨[("ok", 1)], false⟩) [⟨[("ok", 1)], false⟩]) :=
  ⟨by decide, by decide⟩

/-- C3 amended: callable responders are not supported by the connection
loop.  Whatever boolean the callable would return, when the most recently
registered matching responder stores a callable, the loop calls
`request.reply` with it as a reply spec, `make_docs` raises TypeError
(each doc must be a dict), and the request never falls through to an
earlier responder. -/
theorem callable_responder_not_invoked
    (l post : List (Request × ReplySpec)) (m req : Request) (ret : Bool)
    (hpost : ∀ p ∈ post, Matcher.matches p.1 req = .ok false)
    (hm : Matcher.matches m req = .ok true) :
    serverLoopDispatch (l ++ (m, .callableArg ret) :: post) req =
      .error .typeErrorDocMustBeDict := by
  unfold serverLoopDispatch
  have hrev : (l ++ (m, .callableArg ret) :: post).reverse =
      post.reverse ++ (m, .callableArg ret) :: l.reverse := by
    simp
  rw [hrev,
    dispatchRev_skip req post.reverse _ (fun p hp => hpost p (List.mem_reverse.mp hp))]
  simp [dispatchRev, hm, make_docs]

/-- Witness for `callable_responder_not_invoked` with a single callable
responder and a wildcard request. -/
theorem callable_responder_not_invoked_witness :
    serverLoopDispatch [({}, .callableArg false)] {} =
      .error .typeErrorDocMustBeDict :=
  callable_responder_not_invoked [] [] {} {} false (by simp) rfl

/-- C4: the claim states that a well-formed KILL_CURSORS body carrying n
8-byte little-endian cursor ids parses into exactly those int64 values.
`OpKillCursors.unpack` reads each id with the 4-byte `_UNPACK_INT` instead
of `_UNPACK_LONG`: on a body with numberOfCursorIDs = 1 and the single
cursor id 4294967296 = 2^32, it returns [0] — the low 32 bits of the id —
although the int64 encoded at offset 8 is 4294967296. -/
theorem kill_cursors_ids_truncated :
    OpKillCursors_unpack
      [0, 0, 0, 0, 1, 0, 0, 0, 0, 0, 0, 0, 1, 0, 0, 0] = .ok [0] ∧
    unpackLong [0, 0, 0, 0, 1, 0, 0, 0, 0, 0, 0, 0, 1, 0, 0, 0] 8 =
      .ok 4294967296 :=
  ⟨by decide, by decide⟩

/-- C5: if the prototype document at index i is an ordered mapping, then a
successful match forces the candidate document at index i to be ordered as
well, with the prototype keys an order-preserving subsequence of the
candidate keys; concretely, ordered prototype {a:1, b:1} does not match
ordered candidate {b:1, a:1} and does match ordered candidate
{a:1, b:1, c:1}. -/
theorem matcher_ordered_doc_gate :
    (∀ (proto cand : Request) (i : Nat) (d c : Doc),
        Matcher.matches proto cand = .ok true →
        proto.docs[i]? = some d → cand.docs[i]? = some c →
        d.ordered = true → c.ordered = true ∧ d.keys.Sublist c.keys) ∧
    Matcher.matches { docs := [⟨[("a", 1), ("b", 1)], true⟩] }
      { docs := [⟨[("b", 1), ("a", 1)], true⟩] } = .ok false ∧
    Matcher.matches { docs := [⟨[("a", 1), ("b", 1)], true⟩] }
      { docs := [⟨[("a", 1), ("b", 1), ("c", 1)], true⟩] } = .ok true := by
  refine ⟨?_, by decide, by decide⟩
  intro proto cand i d c hm hd hc hord
  have h1 := docsMatch_get proto.docs cand.docs i d c (matches_true_elim hm) hd hc
  have h2 := docMatch_ordered h1 hord
  exact ⟨h2.1, seq_match_sublist _ _ h2.2⟩

/-- Witness for `matcher_ordered_doc_gate` at ordered prototype document
{a:1, b:1} and ordered candidate document {a:1, b:1, c:1}. -/
theorem matcher_ordered_doc_gate_witness :
    (⟨[("a", 1), ("b", 1), ("c", 1)], true⟩ : Doc).ordered = true ∧
    (Doc.keys ⟨[("a", 1), ("b", 1)], true⟩).Sublist
      (Doc.keys ⟨[("a", 1), ("b", 1), ("c", 1)], true⟩) :=
  matcher_ordered_doc_gate.1
    { docs := [⟨[("a", 1), ("b", 1)], true⟩] }
    { docs := [⟨[("a", 1), ("b", 1), ("c", 1)], true⟩] }
    0 ⟨[("a", 1), ("b", 1)], true⟩ ⟨[("a", 1), ("b", 1), ("c", 1)], true⟩
    (by decide) (by decide) (by decide) (by decide)

/-- C6: on the `receives` polling loop, a popped request that does not
match the spec raises the unexpected-request assertion; an Empty poll past
the deadline raises the timeout assertion; and a stopped server makes
`receives` return None instead of raising. -/
theorem receives_outcomes :
    (∀ (proto : Request) (pre : List PollStep) (s : PollStep)
        (rest : List PollStep) (r : Request),
        (∀ x ∈ pre, contStep x) → s.stopped = false → s.popped = some r →
        Matcher.matches proto r = .ok false →
        receivesRun proto (pre ++ s :: rest) = .unexpectedErr r) ∧
    (∀ (proto : Request) (pre : List PollStep) (s : PollStep) (rest : List PollStep),
        (∀ x ∈ pre, contStep x) → s.stopped = false → s.popped = none →
        s.pastEnd = true →
        receivesRun proto (pre ++ s :: rest) = .timeoutErr) ∧
    (∀ (proto : Request) (pre : List PollStep) (s : PollStep) (rest : List PollStep),
        (∀ x ∈ pre, contStep x) → s.stopped = true →
        receivesRun proto (pre ++ s :: rest) = .stoppedNone) := by
  refine ⟨?_, ?_, ?_⟩
  · intro proto pre s rest r hpre h1 h2 h3
    rw [receivesRun_cont_append proto pre _ hpre]
    simp [receivesRun, h1, h2, h3]
  · intro proto pre s rest hpre h1 h2 h3
    rw [receivesRun_cont_append proto pre _ hpre]
    simp [receivesRun, h1, h2, h3]
  · intro proto pre s rest hpre h1
    rw [receivesRun_cont_append proto pre _ hpre]
    simp [receivesRun, h1]

/-- Witness for `receives_outcomes`: expecting command bar while command
foo is popped raises the unexpected-request assertion. -/
theorem receives_outcomes_witness :
    receivesRun (Command.ofString "bar")
      [⟨false, some (Command.ofString "foo"), false⟩] =
      .unexpectedErr (Command.ofString "foo") :=
  receives_outcomes.1 (Command.ofString "bar") []
    ⟨false, some (Command.ofString "foo"), false⟩ [] (Command.ofString "foo")
    (by simp) rfl rfl (by decide)

/-- C7: a Command reply with zero documents is replaced by the single
document {ok: 1}; a single reply document has its ok key set to 1 when
absent and is left unchanged when present; a reply with more than one
document is rejected with ValueError. -/
theorem command_reply_defaults :
    Command_replies [] = .ok [⟨[("ok", 1)], false⟩] ∧
    (∀ d : Doc, d.get "ok" = none →
        Command_replies [d] = .ok [⟨d.entries ++ [("ok", 1)], d.ordered⟩] ∧
        Doc.get ⟨d.entries ++ [("ok", 1)], d.ordered⟩ "ok" = some 1) ∧
    (∀ (d : Doc) (v : Int), d.get "ok" = some v → Command_replies [d] = .ok [d]) ∧
    (∀ docs : List Doc, 1 < docs.length →
        Command_replies docs = .error .valueErrorMultiDocCommandReply) := by
  refine ⟨rfl, ?_, ?_, ?_⟩
  · intro d hnone
    have hfind : d.entries.find? (fun kv => kv.1 == "ok") = none := by
      rw [Doc.get] at hnone
      exact Option.map_eq_none.mp hnone
    constructor
    · rw [Command_replies, Doc.setdefault, hnone]
    · rw [Doc.get]
      simp [List.find?_append, hfind]
  · intro d v hsome
    rw [Command_replies, Doc.setdefault, hsome]
  · intro docs hlen
    match docs with
    | [] => simp at hlen
    | [d] => simp at hlen
    | a :: b :: t => rfl

/-- Witness for `command_reply_defaults`: the reply document {x: 2} gains
ok: 1, and the reply document {ok: 0} is left unchanged. -/
theorem command_reply_defaults_witness :
    (Command_replies [⟨[("x", 2)], false⟩] =
        .ok [⟨[("x", 2), ("ok", 1)], false⟩] ∧
      Doc.get ⟨[("x", 2), ("ok", 1)], false⟩ "ok" = some 1) ∧
    Command_replies [⟨[("ok", 0)], false⟩] = .ok [⟨[("ok", 0)], false⟩] :=
  ⟨command_reply_defaults.2.1 ⟨[("x", 2)], false⟩ (by decide),
   command_reply_defaults.2.2.1 ⟨[("ok", 0)], false⟩ 0 (by decide)⟩

/-- C8: autoresponders are evaluated most recently registered first, so
when responders R1 (earlier) and R2 (later, with no matching responder
after it) both match a request, R2 handles it. -/
theorem autoresponder_lifo
    (l1 l2 l3 : List (Request × ReplySpec)) (m1 m2 : Request) (s1 s2 : ReplySpec)
    (req : Request) (ds : List Doc)
    (_h1 : Matcher.matches m1 req = .ok true) (h2 : Matcher.matches m2 req = .ok true)
    (h3 : ∀ p ∈ l3, Matcher.matches p.1 req = .ok false)
    (hds : make_docs s2 = .ok ds) :
    serverLoopDispatch (l1 ++ (m1, s1) :: l2 ++ (m2, s2) :: l3) req =
      .ok (.handled m2 s2 ds) := by
  unfold serverLoopDispatch
  have hrev : (l1 ++ (m1, s1) :: l2 ++ (m2, s2) :: l3).reverse =
      l3.reverse ++ (m2, s2) :: (l2.reverse ++ (m1, s1) :: l1.reverse) := by
    simp
  rw [hrev,
    dispatchRev_skip req l3.reverse _ (fun p hp => h3 p (List.mem_reverse.mp hp))]
  rw [dispatchRev, h2, hds]

/-- Witness for `autoresponder_lifo`: two wildcard responders; the later
one replies. -/
theorem autoresponder_lifo_witness :
    serverLoopDispatch [({}, .strArg "a"), ({}, .numArg 0)] {} =
      .ok (.handled {} (.numArg 0) [⟨[("ok", 0)], false⟩]) :=
  autoresponder_lifo [] [] [] {} {} (.strArg "a") (.numArg 0) {}
    [⟨[("ok", 0)], false⟩] rfl rfl (by simp) rfl

/-- C9: on every non-empty queue state, peek returns the head without
removing it, a second peek returns the same item and leaves the state
unchanged, and the next get returns and consumes that same item. -/
theorem peek_peek_get_same (s : PeekableQueue) (hne : s.items ≠ []) :
    ∃ (x : Request) (s1 : PeekableQueue),
      s.peek = .ok (x, s1) ∧ s1.peek = .ok (x, s1) ∧
      s1.get = .ok (x, ⟨none, s1.queue⟩) ∧
      s.items = x :: PeekableQueue.items ⟨none, s1.queue⟩ := by
  obtain ⟨item, queue⟩ := s
  cases item with
  | some x => exact ⟨x, ⟨some x, queue⟩, rfl, rfl, rfl, rfl⟩
  | none =>
    cases queue with
    | nil => exact absurd rfl hne
    | cons x xs => exact ⟨x, ⟨some x, xs⟩, rfl, rfl, rfl, rfl⟩

/-- Witness for `peek_peek_get_same` on a queue holding one wildcard
request with an empty peek buffer. -/
theorem peek_peek_get_same_witness :
    ∃ (x : Request) (s1 : PeekableQueue),
      PeekableQueue.peek ⟨none, [{}]⟩ = .ok (x, s1) ∧ s1.peek = .ok (x, s1) ∧
      s1.get = .ok (x, ⟨none, s1.queue⟩) ∧
      PeekableQueue.items ⟨none, [{}]⟩ = x :: PeekableQueue.items ⟨none, s1.queue⟩ :=
  peek_peek_get_same ⟨none, [{}]⟩ (by decide)

/-- C10: the request property, defined as `self.got() or None`, never
evaluates to a Request object: it is True when a request reaches the head
of the queue (the wildcard matcher of the argument-less `got` matches any
request) and None when the queue stays empty through the timeout. -/
theorem request_property_never_request :
    (∀ (trace : List PollStep) (r : Request),
        MockupDB_request trace ≠ some (.requestVal r)) ∧
    (∀ (pre : List PollStep) (s : PollStep) (rest : List PollStep) (r : Request),
        (∀ x ∈ pre, contStep x) → s.stopped = false → s.popped = some r →
        MockupDB_request (pre ++ s :: rest) = some (.boolVal true)) ∧
    (∀ (pre : List PollStep) (s : PollStep) (rest : List PollStep),
        (∀ x ∈ pre, contStep x) → s.stopped = false → s.popped = none →
        s.pastEnd = true →
        MockupDB_request (pre ++ s :: rest) = some .noneVal) := by
  refine ⟨?_, ?_, ?_⟩
  · intro trace r
    rw [MockupDB_request]
    cases h : gotRun {} trace with
    | boolRes b => cases b <;> simp
    | noneRes => simp
    | matchErr e => simp
    | running => simp
  · intro pre s rest r hpre h1 h2
    rw [MockupDB_request, gotRun_cont_append {} pre _ hpre]
    simp [gotRun, h1, h2, matches_wildcard]
  · intro pre s rest hpre h1 h2 h3
    rw [MockupDB_request, gotRun_cont_append {} pre _ hpre]
    simp [gotRun, h1, h2, h3]

/-- Witness for `request_property_never_request`: with a request at the
head of the queue the property evaluates to True, not to the request. -/
theorem request_property_never_request_witness :
    MockupDB_request [⟨false, some (Command.ofString "foo"), false⟩] =
      some (.boolVal true) :=
  request_property_never_request.2.1 [] ⟨false, some (Command.ofString "foo"), false⟩
    [] (Command.ofString "foo") (by simp) rfl rfl
